import Mathlib

/-!
Shallow embedding of `tb_gen.py`, a VHDL test bench generator for
combinational and sequential logic.

The Python program is a single class `TestBench` holding one mutable
dictionary `self.data` parsed from a JSON file.  `load` post-processes the
parsed dictionary (quoting pin values and normalising the clock pin) and
`generate` folds the dictionary into the output text, writing the file only
after the whole text has been built.  We model the dictionary as the
structures `RawData` (as parsed, before `load`'s post-processing) and
`TBData` (after it); dictionary accesses that can raise `KeyError`,
`StopIteration`, `TypeError` or `IndexError` are modelled in the `Except
GenErr` monad, so `Except.error` corresponds to the Python process aborting
with an uncaught exception before any output file is written.
-/

namespace TbGen

/-- The single-quote character as a string (used for `std_logic` literals). -/
def sq : String := String.singleton (Char.ofNat 39)

/-- The double-quote character as a string (used for `std_logic_vector`
literals). -/
def dq : String := String.singleton (Char.ofNat 34)

/-- Python `indent_string`: indent a string by a given number of spaces. -/
def indent_string (s : String) (amount : Nat) : String :=
  String.mk (List.replicate amount ' ') ++ s

/-- A JSON scalar value as it occurs inside a test-case record: a string or
an integer.  Python's f-string / `format` conversion to text is `JVal.render`. -/
inductive JVal where
  | str (s : String)
  | int (n : Int)
deriving DecidableEq

/-- Python `str` / f-string rendering of a value. -/
def JVal.render : JVal → String
  | .str s => s
  | .int n => toString n

/-- A test-case record: a JSON object, i.e. an association list with unique
keys, mapping pin names (and the key `"_wait"`) to values. -/
abbrev TestCase := List (String × JVal)

/-- First-match association-list lookup, the model of Python `d[k]`
(returning `none` where Python raises `KeyError`). -/
def lookupKey {α : Type} : List (String × α) → String → Option α
  | [], _ => none
  | (k2, v) :: rest, k => if k2 = k then some v else lookupKey rest k

/-- Model of Python `d[k] = v` on a dict: replace the binding of `k` if
present, append it otherwise. -/
def setKey : TestCase → String → JVal → TestCase
  | [], k, v => [(k, v)]
  | (k2, v2) :: rest, k, v =>
    if k2 = k then (k2, v) :: rest else (k2, v2) :: setKey rest k v

/-- Model of Python `dict(a, **b)`: the keys of `a` in order (with `b`'s
value where a key is in both), followed by the keys of `b` not in `a`. -/
def mergePins (a b : List (String × Option Int)) : List (String × Option Int) :=
  a.map (fun pw =>
    match lookupKey b pw.1 with
    | some w => (pw.1, w)
    | none => pw) ++
  b.filter (fun pw => (lookupKey a pw.1).isNone)

/-- Python truthiness of a width entry: `None` and `0` are falsy, every
other integer is truthy. -/
def widthTruthy : Option Int → Bool
  | none => false
  | some w => w != 0

/-- The exceptions the generator can raise: `KeyError` (missing dict key),
`StopIteration` (from `next(iter({}))`), `TypeError` (ordering comparison on
a non-integer wait code) and `IndexError` (list index out of range). -/
inductive GenErr where
  | keyError (k : String)
  | stopIteration
  | typeError
  | indexError
deriving DecidableEq

/-- Accessing an optional field of the data dictionary, raising `KeyError`
with the field's name when it is absent. -/
def getKey {α : Type} (v : Option α) (k : String) : Except GenErr α :=
  match v with
  | some x => Except.ok x
  | none => Except.error (GenErr.keyError k)

/-- `exMapM f l` is the model of a Python list comprehension over `l` whose
body `f` can raise: elements are produced left to right and the first
exception aborts the whole comprehension. -/
def exMapM {α β : Type} (f : α → Except GenErr β) : List α → Except GenErr (List β)
  | [] => Except.ok []
  | a :: as => do
    let b ← f a
    let bs ← exMapM f as
    Except.ok (b :: bs)

/-- `exFoldlM` is the model of a Python `for` loop threading a value, whose
body can raise. -/
def exFoldlM {α β : Type} (f : β → α → Except GenErr β) : β → List α → Except GenErr β
  | b, [] => Except.ok b
  | b, a :: as => do
    let b2 ← f b a
    exFoldlM f b2 as

/-- `true` on `Except.ok`, i.e. the Python call finished without raising. -/
def isOkE {α : Type} : Except GenErr α → Bool
  | .ok _ => true
  | .error _ => false

/-- The parsed JSON file before `TestBench.load`'s post-processing.  The
fields that `load` itself dereferences (`input_pins`, `output_pins`,
`test_cases`, `clocked`) are plain; fields first dereferenced later are
`Option`s so that a missing key can be modelled (`none` is a missing key). -/
structure RawData where
  library : Option String
  entity : Option String
  architecture : Option String
  clocked : Bool
  clock_pin : Option String
  clock_period : Option Int
  generic_params : Option (List (String × String))
  input_pins : List (String × Option Int)
  output_pins : List (String × Option Int)
  test_cases : List TestCase
deriving DecidableEq

/-- `self.data` after `TestBench.load`: pin values of every test case are
quoted and `clock_pin` has been replaced by a pin-set-shaped dict (a
singleton name list when clocked, empty otherwise). -/
structure TBData where
  library : Option String
  entity : Option String
  architecture : Option String
  clocked : Bool
  clock_pin : List String
  clock_period : Option Int
  generic_params : Option (List (String × String))
  input_pins : List (String × Option Int)
  output_pins : List (String × Option Int)
  test_cases : List TestCase
deriving DecidableEq

/-- Python `f'"{t[p]}"' if pins[p] else f"'{t[p]}'"`: wrap a rendered value
in double quotes when the pin's width is truthy, in single quotes
otherwise. -/
def quoteVal (w : Option Int) (v : String) : String :=
  if widthTruthy w then dq ++ v ++ dq else sq ++ v ++ sq

namespace TestBench

/-- The inner loop of `TestBench.__quote_pin_values` for one test case:
for each pin of the merged input/output pin dict, re-bind the pin's value in
the test-case record to its quoted rendering (`KeyError` when the test case
has no value for a declared pin). -/
def quote_test_case (pins : List (String × Option Int)) (t : TestCase) :
    Except GenErr TestCase :=
  exFoldlM (fun acc pw =>
    match lookupKey acc pw.1 with
    | some v => Except.ok (setKey acc pw.1 (JVal.str (quoteVal pw.2 v.render)))
    | none => Except.error (GenErr.keyError pw.1)) t pins

/-- `TestBench.__quote_pin_values`: quote the pin values of every test case,
over the dict `pins = dict(self.data["input_pins"], **self.data["output_pins"])`. -/
def quote_pin_values (r : RawData) : Except GenErr (List TestCase) :=
  exMapM (quote_test_case (mergePins r.input_pins r.output_pins)) r.test_cases

/-- `TestBench.load` (after the JSON parse): quote pin values, then convert
the clock pin to the same format as the input and output pin sets. -/
def load (r : RawData) : Except GenErr TBData := do
  let tcs ← quote_pin_values r
  let cpin ← if r.clocked then
      match r.clock_pin with
      | some c => Except.ok [c]
      | none => Except.error (GenErr.keyError "clock_pin")
    else Except.ok []
  Except.ok
    { library := r.library, entity := r.entity, architecture := r.architecture,
      clocked := r.clocked, clock_pin := cpin, clock_period := r.clock_period,
      generic_params := r.generic_params, input_pins := r.input_pins,
      output_pins := r.output_pins, test_cases := tcs }

/-- `TestBench.__HEADER`, with its three format arguments substituted. -/
def HEADER (lib ent arch : String) : String :=
  "--------------------------------------------------------\n" ++
  "-- Test bench for entity " ++ lib ++ "." ++ ent ++ "(" ++ arch ++ ")\n" ++
  "-- Generated by tb_gen.py\n" ++
  "--------------------------------------------------------\n\n" ++
  "library ieee;\n" ++
  "use ieee.std_logic_1164.all;\n" ++
  "library " ++ lib ++ ";\n\n" ++
  "-- test bench entity\n" ++
  "entity " ++ ent ++ "_tb is\n" ++
  "end " ++ ent ++ "_tb;\n\n" ++
  "-- test bench architecture\n" ++
  "architecture tb of " ++ ent ++ "_tb is\n"

/-- `TestBench.__CLK_WAIT_PRCD`: the reusable clock-edge wait procedure. -/
def CLK_WAIT_PRCD : String :=
  indent_string "-- procedure to wait for a number of rising or falling clock edges\n" 4 ++
  indent_string "procedure wait_until_clk_edges (signal clk: in std_logic; n: in positive; rising: in boolean) is\n" 4 ++
  indent_string "begin\n" 4 ++
  indent_string "if rising then\n" 8 ++
  indent_string "for i in 1 to n loop\n" 12 ++
  indent_string "wait until rising_edge(clk);\n" 16 ++
  indent_string "end loop;\n" 12 ++
  indent_string "else\n" 8 ++
  indent_string "for i in 1 to n loop\n" 12 ++
  indent_string "wait until falling_edge(clk);\n" 16 ++
  indent_string "end loop;\n" 12 ++
  indent_string "end if;\n" 8 ++
  indent_string "end procedure;\n" 4

/-- One signal declaration line of
`TestBench.__generate_internal_signal_declarations`: a `std_logic_vector`
when the width is truthy, a `std_logic` otherwise. -/
def sigDeclLine (pw : String × Option Int) : String :=
  let t := match pw.2 with
    | some w =>
      if w != 0 then "std_logic_vector(" ++ toString (w - 1) ++ " downto 0)"
      else "std_logic"
    | none => "std_logic"
  indent_string ("signal tb_" ++ pw.1 ++ ": " ++ t ++ ";\n") 4

/-- `TestBench.__generate_internal_signal_declarations`: a comment line then
one declaration per pin, over the input, clock and output pin sets in that
order. -/
def generate_internal_signal_declarations (d : TBData) : String :=
  indent_string "-- internal signal declarations\n" 4 ++
  String.join ((d.input_pins ++
    d.clock_pin.map (fun c => (c, (none : Option Int))) ++
    d.output_pins).map sigDeclLine)

/-- `TestBench.__generate_port_map`: comma-newline-joined `port => tb_port`
entries, with a trailing comma unless the list is empty or `endFlag`. -/
def generate_port_map (pins : List String) (endFlag : Bool) : String :=
  let result := String.intercalate ",\n"
    (pins.map (fun p => indent_string (p ++ " => tb_" ++ p) 15))
  if result.length > 0 && !endFlag then result ++ ",\n" else result

/-- `TestBench.__generate_uut_instantiation`: the optional generic map
(emitted only when `generic_params` is a non-empty dict) followed by the
port map over inputs, clock and outputs. -/
def generate_uut_instantiation (d : TBData) : Except GenErr String := do
  let gps ← getKey d.generic_params "generic_params"
  let generic_map :=
    if gps.isEmpty then ""
    else
      indent_string "generic map (\n" 11 ++
      String.intercalate ",\n"
        (gps.map (fun pv => indent_string (pv.1 ++ " => " ++ pv.2) 15)) ++
      "\n" ++ indent_string ")\n" 11
  let lib ← getKey d.library "library"
  let ent ← getKey d.entity "entity"
  let arch ← getKey d.architecture "architecture"
  Except.ok
    (indent_string "-- instantiate unit under test\n" 4 ++
     indent_string ("E_UUT: entity " ++ lib ++ "." ++ ent ++ "(" ++ arch ++ ")\n") 4 ++
     generic_map ++
     indent_string "port map (\n" 11 ++
     (generate_port_map (d.input_pins.map Prod.fst) false ++
      generate_port_map d.clock_pin false ++
      generate_port_map (d.output_pins.map Prod.fst) true) ++ "\n" ++
     indent_string ");\n" 11)

/-- `TestBench.__generate_clock_process`: the free-running clock process,
formatted with the clock pin (`next(iter(self.data["clock_pin"]))`, a
`StopIteration` on an empty dict) and `self.data["clock_period"] // 2`
(Python floor division). -/
def generate_clock_process (d : TBData) : Except GenErr String := do
  let clk ← match d.clock_pin.head? with
    | some c => Except.ok c
    | none => Except.error GenErr.stopIteration
  let per ← getKey d.clock_period "clock_period"
  let half := Int.fdiv per 2
  Except.ok
    (indent_string "-- clock process\n" 4 ++
     indent_string "process\n" 4 ++
     indent_string "begin\n" 4 ++
     indent_string ("tb_" ++ clk ++ " <= " ++ sq ++ "0" ++ sq ++ ";\n") 8 ++
     indent_string ("wait for " ++ toString half ++ " ns;\n") 8 ++
     indent_string ("tb_" ++ clk ++ " <= " ++ sq ++ "1" ++ sq ++ ";\n") 8 ++
     indent_string ("wait for " ++ toString half ++ " ns;\n") 8 ++
     indent_string "end process;\n" 4)

/-- `TestBench.__generate_wait_statement`: a clock-edge wait call for a
nonzero code (rising for positive, falling for negative, the edge count is
the absolute value), and the fixed 10 ns wait for zero.  The clock pin
lookup `next(iter(self.data["clock_pin"]))` raises `StopIteration` when the
entity is unclocked. -/
def generate_wait_statement (d : TBData) (code : Int) : Except GenErr String :=
  if code > 0 then
    match d.clock_pin.head? with
    | some clk =>
      Except.ok ("wait_until_clk_edges(tb_" ++ clk ++ ", " ++ toString code ++ ", true);")
    | none => Except.error GenErr.stopIteration
  else if code < 0 then
    match d.clock_pin.head? with
    | some clk =>
      Except.ok ("wait_until_clk_edges(tb_" ++ clk ++ ", " ++ toString (-code) ++ ", false);")
    | none => Except.error GenErr.stopIteration
  else Except.ok "wait for 10 ns;"

/-- `self.data["test_cases"][num]`, an `IndexError` model for an invalid
index (the callers only pass indices below the list length). -/
def getTC (d : TBData) (num : Nat) : Except GenErr TestCase :=
  match d.test_cases.get? num with
  | some t => Except.ok t
  | none => Except.error GenErr.indexError

/-- Body of the input-assignment list comprehension of
`TestBench.__generate_test_case`: `"tb_{0} <= {1};".format(ip, t[ip])`. -/
def assign_line (t : TestCase) (pw : String × Option Int) : Except GenErr String := do
  let v ← match lookupKey t pw.1 with
    | some v => Except.ok v
    | none => Except.error (GenErr.keyError pw.1)
  Except.ok ("tb_" ++ pw.1 ++ " <= " ++ v.render ++ ";")

/-- Body of the assertion list comprehension of
`TestBench.__generate_test_case`: `"(tb_{0} = {1})".format(op, t[op])`. -/
def assert_part (t : TestCase) (pw : String × Option Int) : Except GenErr String := do
  let v ← match lookupKey t pw.1 with
    | some v => Except.ok v
    | none => Except.error (GenErr.keyError pw.1)
  Except.ok ("(tb_" ++ pw.1 ++ " = " ++ v.render ++ ")")

/-- Body of the fail-count condition list comprehension of
`TestBench.__generate_test_case`: `"(tb_{0} /= {1})".format(op, t[op])`. -/
def fail_part (t : TestCase) (pw : String × Option Int) : Except GenErr String := do
  let v ← match lookupKey t pw.1 with
    | some v => Except.ok v
    | none => Except.error (GenErr.keyError pw.1)
  Except.ok ("(tb_" ++ pw.1 ++ " /= " ++ v.render ++ ")")

/-- The `lines` list of `TestBench.__generate_test_case`, before the final
indent-and-join: comment, one assignment per input pin, the wait statement
(the wait code is `t["_wait"]`, compared with `0` so a non-integer raises
`TypeError`), the compound output assertion with its report and severity,
and the fail-count increment guarded by the recomputed inverse condition. -/
def generate_test_case_lines (d : TBData) (num : Nat) : Except GenErr (List String) := do
  let t ← getTC d num
  let assigns ← exMapM (assign_line t) d.input_pins
  let wcode ← match lookupKey t "_wait" with
    | some v => Except.ok v
    | none => Except.error (GenErr.keyError "_wait")
  let code ← match wcode with
    | .int n => Except.ok n
    | _ => Except.error GenErr.typeError
  let ws ← generate_wait_statement d code
  let asserts ← exMapM (assert_part t) d.output_pins
  let ifs ← exMapM (fail_part t) d.output_pins
  Except.ok (("-- test case " ++ toString num) ::
    assigns ++
    ws ::
    ("assert (" ++ String.intercalate " and " asserts ++ ")") ::
    ("report " ++ dq ++ "Test case " ++ toString num ++ " failed!" ++ dq) ::
    "severity error;" ::
    ("if (" ++ String.intercalate " or " ifs ++ ") then") ::
    indent_string "fail_count := fail_count + 1;" 4 ::
    ["end if;"])

/-- `TestBench.__generate_test_case`: the lines, each indented 8 spaces,
joined with newlines, plus a trailing newline. -/
def generate_test_case (d : TBData) (num : Nat) : Except GenErr String := do
  let lines ← generate_test_case_lines d num
  Except.ok (String.intercalate "\n" (lines.map (fun l => indent_string l 8)) ++ "\n")

/-- `TestBench.__generate_test_cases`: one block per test case index, joined
with newlines. -/
def generate_test_cases (d : TBData) : Except GenErr String := do
  let blocks ← exMapM (generate_test_case d) (List.range d.test_cases.length)
  Except.ok (String.intercalate "\n" blocks)

/-- `TestBench.__TB_PROC_HEADER`. -/
def TB_PROC_HEADER : String :=
  indent_string "-- test bench process\n" 4 ++
  indent_string "process\n" 4 ++
  indent_string "-- test fail counter\n" 8 ++
  indent_string "variable fail_count: integer := 0;\n" 8 ++
  indent_string "begin\n" 4

/-- `TestBench.__FOOTER`. -/
def FOOTER : String :=
  indent_string "-- check if all tests passed\n" 8 ++
  indent_string "if (fail_count = 0) then\n" 8 ++
  indent_string ("assert false report " ++ dq ++ "All tests passed!" ++ dq ++ "\n") 12 ++
  indent_string "severity note;\n" 12 ++
  indent_string "else\n" 8 ++
  indent_string ("assert false report " ++ dq ++ "Testbench failed!" ++ dq ++ "\n") 12 ++
  indent_string "severity error;\n" 12 ++
  indent_string "end if;\n\n" 8 ++
  indent_string "wait;\n" 8 ++
  indent_string "end process;\n" 4 ++
  "end tb;\n"

/-- `TestBench.generate`, up to (but not including) the file write: the full
output text, assembled in the source's order; an `Except.error` is an
uncaught exception raised before the output file is opened, so nothing is
written in that case. -/
def generate (d : TBData) : Except GenErr String := do
  let lib ← getKey d.library "library"
  let ent ← getKey d.entity "entity"
  let arch ← getKey d.architecture "architecture"
  let header := HEADER lib ent arch
  let part1 := if d.clocked then header ++ CLK_WAIT_PRCD ++ "\n" else header
  let part2 := part1 ++ generate_internal_signal_declarations d
  let uut ← generate_uut_instantiation d
  let part3 := part2 ++ "begin\n" ++ uut
  let part4 ← if d.clocked then do
      let cp ← generate_clock_process d
      Except.ok (part3 ++ "\n" ++ cp)
    else Except.ok part3
  let part5 := part4 ++ "\n" ++ TB_PROC_HEADER
  let tcs ← generate_test_cases d
  Except.ok (part5 ++ tcs ++ "\n" ++ FOOTER)

/-- The whole pipeline of `tb_gen.py`'s main block after the JSON parse:
`load` then `generate`. -/
def run (r : RawData) : Except GenErr String :=
  load r >>= generate

end TestBench

/-- The first character of a string, if any. -/
def headChar (s : String) : Option Char := s.data.head?

/-- Recogniser for the synchronization statements emitted into a test-case
block: both `wait for 10 ns;` and `wait_until_clk_edges(...);` start with
the character `w`, and no other line of a test-case block does. -/
def isSyncLine (s : String) : Bool := headChar s == some 'w'

/-- The record keys of a test vector that generation ever reads: the input
pin names, the output pin names, and the wait-code key `"_wait"`. -/
def declaredKeys (d : TBData) : List String :=
  d.input_pins.map Prod.fst ++ d.output_pins.map Prod.fst ++ ["_wait"]

/-- Two test-case records agreeing on every key in `ks` (they may differ
arbitrarily on all other keys). -/
abbrev agreeOn (ks : List String) (t1 t2 : TestCase) : Prop :=
  ∀ k ∈ ks, lookupKey t1 k = lookupKey t2 k

/-- A spec with one scalar input pin `a`, one width-2 output pin `b` and one
test vector whose value for `b` is the single character `1`. -/
def c1raw : RawData :=
  { library := some "work", entity := some "ent", architecture := some "rtl",
    clocked := false, clock_pin := none, clock_period := none,
    generic_params := some [],
    input_pins := [("a", none)], output_pins := [("b", some 2)],
    test_cases := [[("a", JVal.str "0"), ("b", JVal.str "1"), ("_wait", JVal.int 0)]] }

/-- The result of `TestBench.load` on `c1raw`: the value of the scalar pin
`a` is single-quoted and the value of the width-2 pin `b` is double-quoted,
verbatim (still one character between the quotes). -/
def c1loaded : TBData :=
  { library := some "work", entity := some "ent", architecture := some "rtl",
    clocked := false, clock_pin := [], clock_period := none,
    generic_params := some [],
    input_pins := [("a", none)], output_pins := [("b", some 2)],
    test_cases := [[("a", JVal.str (sq ++ "0" ++ sq)),
                    ("b", JVal.str (dq ++ "1" ++ dq)),
                    ("_wait", JVal.int 0)]] }

/-- A loaded clocked spec with one vector whose wait code is 2. -/
def c2data : TBData :=
  { library := some "work", entity := some "ent", architecture := some "rtl",
    clocked := true, clock_pin := ["clk"], clock_period := some 20,
    generic_params := some [],
    input_pins := [("a", none)], output_pins := [("b", none)],
    test_cases := [[("a", JVal.str (sq ++ "1" ++ sq)),
                    ("b", JVal.str (sq ++ "0" ++ sq)),
                    ("_wait", JVal.int 2)]] }

/-- The lines of the single test-case block of `c2data`. -/
def c2lines : List String :=
  ["-- test case 0",
   "tb_a <= " ++ sq ++ "1" ++ sq ++ ";",
   "wait_until_clk_edges(tb_clk, 2, true);",
   "assert ((tb_b = " ++ sq ++ "0" ++ sq ++ "))",
   "report " ++ dq ++ "Test case 0 failed!" ++ dq,
   "severity error;",
   "if ((tb_b /= " ++ sq ++ "0" ++ sq ++ ")) then",
   indent_string "fail_count := fail_count + 1;" 4,
   "end if;"]

/-- A spec with a width-0 input pin `z` and a width-(-1) output pin `n`. -/
def c3raw : RawData :=
  { library := some "work", entity := some "e3", architecture := some "rtl",
    clocked := false, clock_pin := none, clock_period := none,
    generic_params := some [],
    input_pins := [("z", some 0)], output_pins := [("n", some (-1))],
    test_cases := [[("z", JVal.str "1"), ("n", JVal.str "0"), ("_wait", JVal.int 0)]] }

/-- The result of `TestBench.load` on `c3raw`: the width-0 pin was treated
as a scalar (single quotes), the negative-width pin as a vector (double
quotes); nothing failed. -/
def c3loaded : TBData :=
  { library := some "work", entity := some "e3", architecture := some "rtl",
    clocked := false, clock_pin := [], clock_period := none,
    generic_params := some [],
    input_pins := [("z", some 0)], output_pins := [("n", some (-1))],
    test_cases := [[("z", JVal.str (sq ++ "1" ++ sq)),
                    ("n", JVal.str (dq ++ "0" ++ dq)),
                    ("_wait", JVal.int 0)]] }

/-- A spec whose output pin set is empty but which is otherwise complete. -/
def c4raw : RawData :=
  { library := some "work", entity := some "e4", architecture := some "rtl",
    clocked := false, clock_pin := none, clock_period := none,
    generic_params := some [],
    input_pins := [("a", none)], output_pins := [],
    test_cases := [[("a", JVal.str "0"), ("_wait", JVal.int 0)]] }

/-- A loaded spec of an unclocked entity whose single vector carries the
nonzero wait code 3. -/
def c5data : TBData :=
  { library := some "work", entity := some "e5", architecture := some "rtl",
    clocked := false, clock_pin := [], clock_period := none,
    generic_params := some [],
    input_pins := [("a", none)], output_pins := [("b", none)],
    test_cases := [[("a", JVal.str (sq ++ "1" ++ sq)),
                    ("b", JVal.str (sq ++ "0" ++ sq)),
                    ("_wait", JVal.int 3)]] }

/-- A loaded clocked spec with the odd clock period 21. -/
def c6data : TBData :=
  { library := some "work", entity := some "e6", architecture := some "rtl",
    clocked := true, clock_pin := ["clk"], clock_period := some 21,
    generic_params := some [],
    input_pins := [("a", none)], output_pins := [("b", none)],
    test_cases := [] }

/-- A loaded spec with one generic parameter. -/
def c7data : TBData :=
  { library := some "work", entity := some "e7", architecture := some "rtl",
    clocked := false, clock_pin := [], clock_period := none,
    generic_params := some [("N", "4")],
    input_pins := [("a", none)], output_pins := [("b", none)],
    test_cases := [] }

/-- A loaded spec identical to `c7data` except for an empty generic map. -/
def c7empty : TBData :=
  { library := some "work", entity := some "e7", architecture := some "rtl",
    clocked := false, clock_pin := [], clock_period := none,
    generic_params := some [],
    input_pins := [("a", none)], output_pins := [("b", none)],
    test_cases := [] }

/-- A loaded unclocked spec with one scalar input, one scalar output and one
vector, used to exercise the per-claim theorems on concrete data. -/
def c9data : TBData :=
  { library := some "work", entity := some "e9", architecture := some "rtl",
    clocked := false, clock_pin := [], clock_period := none,
    generic_params := some [],
    input_pins := [("a", none)], output_pins := [("b", none)],
    test_cases := [[("a", JVal.str (sq ++ "1" ++ sq)),
                    ("b", JVal.str (sq ++ "0" ++ sq)),
                    ("_wait", JVal.int 0)]] }

/-- The test case of `c9data` with an extra record key `"note"` that no
declared pin or wait-code lookup ever reads. -/
def c10extra : List TestCase :=
  [[("a", JVal.str (sq ++ "1" ++ sq)),
    ("b", JVal.str (sq ++ "0" ++ sq)),
    ("_wait", JVal.int 0),
    ("note", JVal.str "ignored")]]

/-- The single test case of `c1raw` after quoting. -/
def c1qt : TestCase :=
  [("a", JVal.str (sq ++ "0" ++ sq)),
   ("b", JVal.str (dq ++ "1" ++ dq)),
   ("_wait", JVal.int 0)]

/-- The lines of the single test-case block generated from `c1loaded`: the
scalar pin `a` is referenced single-quoted, the width-2 pin `b` is
referenced double-quoted with its raw one-character value `1` verbatim, in
the assignment, the assertion and the fail-count condition alike. -/
def c1lines : List String :=
  ["-- test case 0",
   "tb_a <= " ++ sq ++ "0" ++ sq ++ ";",
   "wait for 10 ns;",
   "assert ((tb_b = " ++ dq ++ "1" ++ dq ++ "))",
   "report " ++ dq ++ "Test case 0 failed!" ++ dq,
   "severity error;",
   "if ((tb_b /= " ++ dq ++ "1" ++ dq ++ ")) then",
   indent_string "fail_count := fail_count + 1;" 4,
   "end if;"]

/-- The text that `generate_test_cases` produces for `c9data`: one block,
whose comment and failure report both cite index 0. -/
def c9out : String :=
  indent_string "-- test case 0" 8 ++ "\n" ++
  indent_string ("tb_a <= " ++ sq ++ "1" ++ sq ++ ";") 8 ++ "\n" ++
  indent_string "wait for 10 ns;" 8 ++ "\n" ++
  indent_string ("assert ((tb_b = " ++ sq ++ "0" ++ sq ++ "))") 8 ++ "\n" ++
  indent_string ("report " ++ dq ++ "Test case 0 failed!" ++ dq) 8 ++ "\n" ++
  indent_string "severity error;" 8 ++ "\n" ++
  indent_string ("if ((tb_b /= " ++ sq ++ "0" ++ sq ++ ")) then") 8 ++ "\n" ++
  indent_string (indent_string "fail_count := fail_count + 1;" 4) 8 ++ "\n" ++
  indent_string "end if;" 8 ++ "\n"

/-- A loaded spec whose `entity` key is missing. -/
def c4noent : TBData :=
  { library := some "work", entity := none, architecture := some "rtl",
    clocked := false, clock_pin := [], clock_period := none,
    generic_params := some [],
    input_pins := [("a", none)], output_pins := [("b", none)],
    test_cases := [] }

/-! Generic lemmas about the `Except` monad, `exMapM`, association lists and
string heads, used by the claim theorems below. -/

theorem ok_bind {α β : Type} (a : α) (f : α → Except GenErr β) :
    (Except.ok a >>= f) = f a := rfl

theorem error_bind {α β : Type} (e : GenErr) (f : α → Except GenErr β) :
    ((Except.error e : Except GenErr α) >>= f) = Except.error e := rfl

theorem isOkE_bind_left {α β : Type} (x : Except GenErr α) (f : α → Except GenErr β)
    (h : isOkE x = false) : isOkE (x >>= f) = false := by
  cases x with
  | ok a => simp [isOkE] at h
  | error e => rfl

theorem isOkE_bind_forall {α β : Type} (x : Except GenErr α) (f : α → Except GenErr β)
    (h : ∀ a, isOkE (f a) = false) : isOkE (x >>= f) = false := by
  cases x with
  | ok a => exact h a
  | error e => rfl

theorem exMapM_ok_forall₂ {α β : Type} (f : α → Except GenErr β) :
    ∀ (l : List α) (ys : List β), exMapM f l = Except.ok ys →
      List.Forall₂ (fun a b => f a = Except.ok b) l ys := by
  intro l
  induction l with
  | nil =>
    intro ys h
    unfold exMapM at h
    injection h with h
    rw [← h]
    exact List.Forall₂.nil
  | cons a as ih =>
    intro ys h
    unfold exMapM at h
    cases hfa : f a with
    | error e => rw [hfa, error_bind] at h; exact absurd h (by simp)
    | ok b =>
      rw [hfa, ok_bind] at h
      cases hrest : exMapM f as with
      | error e => rw [hrest, error_bind] at h; exact absurd h (by simp)
      | ok bs =>
        rw [hrest, ok_bind] at h
        injection h with h
        rw [← h]
        exact List.Forall₂.cons hfa (ih bs hrest)

theorem exMapM_ok_of_pointwise {α β : Type} (f : α → Except GenErr β) (g : α → β) :
    ∀ l : List α, (∀ a ∈ l, f a = Except.ok (g a)) →
      exMapM f l = Except.ok (l.map g) := by
  intro l
  induction l with
  | nil => intro _; rfl
  | cons a as ih =>
    intro h
    unfold exMapM
    rw [h a (List.mem_cons_self a as), ok_bind,
        ih (fun x hx => h x (List.mem_cons_of_mem a hx)), ok_bind]
    rfl

theorem exMapM_congr {α β : Type} (f g : α → Except GenErr β) :
    ∀ l : List α, (∀ a ∈ l, f a = g a) → exMapM f l = exMapM g l := by
  intro l
  induction l with
  | nil => intro _; rfl
  | cons a as ih =>
    intro h
    unfold exMapM
    rw [h a (List.mem_cons_self a as), ih (fun x hx => h x (List.mem_cons_of_mem a hx))]

theorem exMapM_isOkE_false {α β : Type} (f : α → Except GenErr β) (a : α) :
    ∀ l : List α, a ∈ l → isOkE (f a) = false → isOkE (exMapM f l) = false := by
  intro l
  induction l with
  | nil => intro h; cases h
  | cons x xs ih =>
    intro hmem hfa
    unfold exMapM
    rcases List.mem_cons.mp hmem with h | h
    · rw [← h]; exact isOkE_bind_left _ _ hfa
    · cases hfx : f x with
      | error e => rfl
      | ok b =>
        rw [ok_bind]
        exact isOkE_bind_left _ _ (ih h hfa)

theorem forall₂_get? {α β : Type} (R : α → β → Prop) (l : List α) (ys : List β)
    (h : List.Forall₂ R l ys) :
    ∀ (i : Nat) (a : α), l.get? i = some a → ∃ b, ys.get? i = some b ∧ R a b := by
  induction h with
  | nil => intro i a h2; simp at h2
  | cons hab _ ih =>
    intro i a h2
    cases i with
    | zero =>
      injection h2 with h2
      exact ⟨_, rfl, h2 ▸ hab⟩
    | succ n => exact ih n a h2

theorem forall₂_mem_left {α β : Type} (R : α → β → Prop) (l : List α) (ys : List β)
    (h : List.Forall₂ R l ys) :
    ∀ a ∈ l, ∃ b ∈ ys, R a b := by
  induction h with
  | nil => intro a ha; cases ha
  | cons hab _ ih =>
    intro a ha
    rcases List.mem_cons.mp ha with h2 | h2
    · exact ⟨_, List.mem_cons_self _ _, h2 ▸ hab⟩
    · obtain ⟨b, hb, hr⟩ := ih a h2
      exact ⟨b, List.mem_cons_of_mem _ hb, hr⟩

theorem forall₂_mem_right {α β : Type} (R : α → β → Prop) (l : List α) (ys : List β)
    (h : List.Forall₂ R l ys) :
    ∀ b ∈ ys, ∃ a ∈ l, R a b := by
  induction h with
  | nil => intro b hb; cases hb
  | cons hab _ ih =>
    intro b hb
    rcases List.mem_cons.mp hb with h2 | h2
    · exact ⟨_, List.mem_cons_self _ _, h2 ▸ hab⟩
    · obtain ⟨a, ha, hr⟩ := ih b h2
      exact ⟨a, List.mem_cons_of_mem _ ha, hr⟩

theorem lookup_setKey_self (t : TestCase) (k : String) (v : JVal) :
    lookupKey (setKey t k v) k = some v := by
  induction t with
  | nil => simp [setKey, lookupKey]
  | cons p rest ih =>
    obtain ⟨k2, v2⟩ := p
    by_cases h : k2 = k
    · simp [setKey, h, lookupKey]
    · simp [setKey, h, lookupKey, ih]

theorem lookup_setKey_ne (t : TestCase) (k k2 : String) (v : JVal) (h : k2 ≠ k) :
    lookupKey (setKey t k v) k2 = lookupKey t k2 := by
  have hk : k ≠ k2 := fun hh => h hh.symm
  induction t with
  | nil => simp [setKey, lookupKey, hk]
  | cons p rest ih =>
    obtain ⟨k3, v3⟩ := p
    by_cases h3 : k3 = k
    · subst h3
      simp [setKey, lookupKey, hk]
    · simp only [setKey, if_neg h3]
      by_cases h32 : k3 = k2
      · simp [lookupKey, h32]
      · simp [lookupKey, h32, ih]

theorem data_append (a b : String) : (a ++ b).data = a.data ++ b.data := by
  obtain ⟨da⟩ := a
  obtain ⟨db⟩ := b
  rfl

theorem headChar_append (a b : String) (c : Char) (h : headChar a = some c) :
    headChar (a ++ b) = some c := by
  unfold headChar at h ⊢
  rw [data_append]
  cases hd : a.data with
  | nil => rw [hd] at h; simp at h
  | cons c2 rest =>
    rw [hd] at h
    injection h with h
    rw [← h]
    rfl

theorem isSync_append_false (a b : String) (c : Char) (h : headChar a = some c)
    (hne : (c == 'w') = false) : isSyncLine (a ++ b) = false := by
  unfold isSyncLine
  rw [headChar_append a b c h]
  exact hne

theorem isSync_append_true (a b : String) (h : headChar a = some 'w') :
    isSyncLine (a ++ b) = true := by
  unfold isSyncLine
  rw [headChar_append a b _ h]
  rfl

theorem string_empty_append (s : String) : "" ++ s = s := by
  obtain ⟨l⟩ := s
  rfl

theorem quote_test_case_nil (t : TestCase) :
    TestBench.quote_test_case [] t = Except.ok t := rfl

theorem quote_test_case_cons (pw : String × Option Int)
    (pins : List (String × Option Int)) (t : TestCase) :
    TestBench.quote_test_case (pw :: pins) t =
      (match lookupKey t pw.1 with
       | some v => Except.ok (setKey t pw.1 (JVal.str (quoteVal pw.2 v.render)))
       | none => Except.error (GenErr.keyError pw.1)) >>= fun t2 =>
      TestBench.quote_test_case pins t2 := rfl

theorem quote_preserve (p : String) :
    ∀ (pins : List (String × Option Int)) (acc t2 : TestCase),
      p ∉ pins.map Prod.fst →
      TestBench.quote_test_case pins acc = Except.ok t2 →
      lookupKey t2 p = lookupKey acc p := by
  intro pins
  induction pins with
  | nil =>
    intro acc t2 _ h
    rw [quote_test_case_nil] at h
    injection h with h
    rw [← h]
  | cons pw rest ih =>
    intro acc t2 hnot h
    rw [quote_test_case_cons] at h
    simp only [List.map_cons, List.mem_cons, not_or] at hnot
    obtain ⟨hne, hnrest⟩ := hnot
    cases hl : lookupKey acc pw.1 with
    | none => simp only [hl, error_bind] at h; exact absurd h (by simp)
    | some v =>
      simp only [hl, ok_bind] at h
      rw [ih _ t2 hnrest h, lookup_setKey_ne _ _ _ _ hne]

theorem quote_lookup (p : String) (w : Option Int) :
    ∀ (pins : List (String × Option Int)) (acc t2 : TestCase) (v : JVal),
      (pins.map Prod.fst).Nodup → (p, w) ∈ pins →
      lookupKey acc p = some v →
      TestBench.quote_test_case pins acc = Except.ok t2 →
      lookupKey t2 p = some (JVal.str (quoteVal w v.render)) := by
  intro pins
  induction pins with
  | nil => intro acc t2 v _ hmem; cases hmem
  | cons pw rest ih =>
    intro acc t2 v hnd hmem hv h
    obtain ⟨q, u⟩ := pw
    rw [quote_test_case_cons] at h
    simp only [List.map_cons, List.nodup_cons] at hnd
    obtain ⟨hqrest, hndrest⟩ := hnd
    rcases List.mem_cons.mp hmem with heq | hmem2
    · injection heq with h1 h2
      subst h1
      subst h2
      simp only [hv, ok_bind] at h
      rw [quote_preserve p rest _ t2 hqrest h, lookup_setKey_self]
    · have hp1 : q ≠ p := by
        intro hh
        rw [hh] at hqrest
        exact hqrest (List.mem_map_of_mem Prod.fst hmem2)
      cases hl : lookupKey acc q with
      | none => simp only [hl, error_bind] at h; exact absurd h (by simp)
      | some v2 =>
        simp only [hl, ok_bind] at h
        have hv2 : lookupKey (setKey acc q (JVal.str (quoteVal u v2.render))) p = some v := by
          rw [lookup_setKey_ne _ _ _ _ (fun hh => hp1 hh.symm), hv]
        exact ih _ t2 v hndrest hmem2 hv2 h

theorem getTC_ok (d : TBData) (num : Nat) (t : TestCase)
    (h : d.test_cases.get? num = some t) : TestBench.getTC d num = Except.ok t := by
  unfold TestBench.getTC
  rw [h]

theorem getTC_ok_inv (d : TBData) (num : Nat) (t : TestCase)
    (h : TestBench.getTC d num = Except.ok t) : d.test_cases.get? num = some t := by
  unfold TestBench.getTC at h
  cases hg : d.test_cases.get? num with
  | none => rw [hg] at h; exact absurd h (by simp)
  | some t2 => rw [hg] at h; injection h with h; rw [h]

theorem assign_line_ok (t : TestCase) (pw : String × Option Int) (b : String)
    (h : TestBench.assign_line t pw = Except.ok b) :
    ∃ v, lookupKey t pw.1 = some v ∧ b = "tb_" ++ pw.1 ++ " <= " ++ v.render ++ ";" := by
  unfold TestBench.assign_line at h
  cases hv : lookupKey t pw.1 with
  | none => simp only [hv, error_bind] at h; exact absurd h (by simp)
  | some v =>
    simp only [hv, ok_bind] at h
    injection h with h
    exact ⟨v, rfl, h.symm⟩

theorem assign_line_ok_of_lookup (t : TestCase) (pw : String × Option Int) (x : String)
    (h : lookupKey t pw.1 = some (JVal.str x)) :
    TestBench.assign_line t pw = Except.ok ("tb_" ++ pw.1 ++ " <= " ++ x ++ ";") := by
  unfold TestBench.assign_line
  rw [h]
  rfl

theorem assert_part_ok_of_lookup (t : TestCase) (pw : String × Option Int) (x : String)
    (h : lookupKey t pw.1 = some (JVal.str x)) :
    TestBench.assert_part t pw = Except.ok ("(tb_" ++ pw.1 ++ " = " ++ x ++ ")") := by
  unfold TestBench.assert_part
  rw [h]
  rfl

theorem fail_part_ok_of_lookup (t : TestCase) (pw : String × Option Int) (x : String)
    (h : lookupKey t pw.1 = some (JVal.str x)) :
    TestBench.fail_part t pw = Except.ok ("(tb_" ++ pw.1 ++ " /= " ++ x ++ ")") := by
  unfold TestBench.fail_part
  rw [h]
  rfl

theorem gtcl_ok_inv (d : TBData) (num : Nat) (ls : List String)
    (h : TestBench.generate_test_case_lines d num = Except.ok ls) :
    ∃ t assigns c ws asserts ifs,
      d.test_cases.get? num = some t ∧
      exMapM (TestBench.assign_line t) d.input_pins = Except.ok assigns ∧
      lookupKey t "_wait" = some (JVal.int c) ∧
      TestBench.generate_wait_statement d c = Except.ok ws ∧
      exMapM (TestBench.assert_part t) d.output_pins = Except.ok asserts ∧
      exMapM (TestBench.fail_part t) d.output_pins = Except.ok ifs ∧
      ls = ("-- test case " ++ toString num) ::
        assigns ++
        ws :: ("assert (" ++ String.intercalate " and " asserts ++ ")") ::
        ("report " ++ dq ++ "Test case " ++ toString num ++ " failed!" ++ dq) ::
        "severity error;" ::
        ("if (" ++ String.intercalate " or " ifs ++ ") then") ::
        indent_string "fail_count := fail_count + 1;" 4 ::
        ["end if;"] := by
  unfold TestBench.generate_test_case_lines at h
  cases hget : TestBench.getTC d num with
  | error e => simp only [hget, error_bind] at h; exact absurd h (by simp)
  | ok t =>
    simp only [hget, ok_bind] at h
    cases hass : exMapM (TestBench.assign_line t) d.input_pins with
    | error e => simp only [hass, error_bind] at h; exact absurd h (by simp)
    | ok assigns =>
      simp only [hass, ok_bind] at h
      cases hw : lookupKey t "_wait" with
      | none => simp only [hw, error_bind] at h; exact absurd h (by simp)
      | some wv =>
        simp only [hw, ok_bind] at h
        cases wv with
        | str s => simp only [error_bind] at h; exact absurd h (by simp)
        | int c =>
          simp only [ok_bind] at h
          cases hws : TestBench.generate_wait_statement d c with
          | error e => simp only [hws, error_bind] at h; exact absurd h (by simp)
          | ok ws =>
            simp only [hws, ok_bind] at h
            cases hasserts : exMapM (TestBench.assert_part t) d.output_pins with
            | error e => simp only [hasserts, error_bind] at h; exact absurd h (by simp)
            | ok asserts =>
              simp only [hasserts, ok_bind] at h
              cases hifs : exMapM (TestBench.fail_part t) d.output_pins with
              | error e => simp only [hifs, error_bind] at h; exact absurd h (by simp)
              | ok ifs =>
                simp only [hifs, ok_bind] at h
                injection h with h
                exact ⟨t, assigns, c, ws, asserts, ifs, getTC_ok_inv d num t hget,
                  hass, hw, hws, hasserts, hifs, h.symm⟩

theorem gtc_ok_inv (d : TBData) (num : Nat) (s : String)
    (h : TestBench.generate_test_case d num = Except.ok s) :
    ∃ ls, TestBench.generate_test_case_lines d num = Except.ok ls ∧
      s = String.intercalate "\n" (ls.map (fun l => indent_string l 8)) ++ "\n" := by
  unfold TestBench.generate_test_case at h
  cases hls : TestBench.generate_test_case_lines d num with
  | error e => simp only [hls, error_bind] at h; exact absurd h (by simp)
  | ok ls =>
    simp only [hls, ok_bind] at h
    injection h with h
    exact ⟨ls, rfl, h.symm⟩

/-! The claim theorems. -/

/-- C8: generation is a deterministic function of the loaded spec — running
`generate` twice on the identical in-memory spec yields identical output
text.  In the embedding `generate` is a pure function of `TBData` (the
Python method only reads `self.data`, never mutates it, and uses no
randomness or ambient state), so the two runs are one and the same value. -/
theorem C8_determinism (d : TBData) :
    TestBench.generate d = TestBench.generate d := rfl

/-- C4 (amended): a loaded spec with a missing entity name makes `generate`
fail with a `KeyError` before any output is produced, so no file is written;
an empty output pin set, however, does not make generation fail (see the
counterexample `C4_counterexample`). -/
theorem C4_missing_entity_fails (d : TBData) (l : String)
    (hl : d.library = some l) (he : d.entity = none) :
    TestBench.generate d = Except.error (GenErr.keyError "entity") := by
  unfold TestBench.generate
  simp [getKey, hl, he, ok_bind, error_bind]

/-- C4 witness: the missing-entity failure on a concrete spec. -/
theorem C4_witness :
    TestBench.generate c4noent = Except.error (GenErr.keyError "entity") :=
  C4_missing_entity_fails c4noent "work" rfl rfl

/-- C4 counterexample: a spec whose output pin set is empty loads and
generates successfully — the harness assembly step does NOT fail, a
(malformed) document is produced, contradicting the claim as stated. -/
theorem C4_counterexample : isOkE (TestBench.run c4raw) = true := by decide

/-- C6 (amended): for every loaded clocked spec the emitted clock process
drives the clock low, waits `clock_period // 2` (floor division) time
units, drives it high, waits the same amount again, inside a process block
(which restarts indefinitely); when the period is even — in particular for
the period 20, where the half period is 10 — the wait is exactly half the
clock period. -/
theorem C6_clock_process (d : TBData) (clk : String) (p : Int)
    (hcp : d.clock_pin = [clk]) (hper : d.clock_period = some p) :
    TestBench.generate_clock_process d = Except.ok (
      indent_string "-- clock process\n" 4 ++
      indent_string "process\n" 4 ++
      indent_string "begin\n" 4 ++
      indent_string ("tb_" ++ clk ++ " <= " ++ sq ++ "0" ++ sq ++ ";\n") 8 ++
      indent_string ("wait for " ++ toString (Int.fdiv p 2) ++ " ns;\n") 8 ++
      indent_string ("tb_" ++ clk ++ " <= " ++ sq ++ "1" ++ sq ++ ";\n") 8 ++
      indent_string ("wait for " ++ toString (Int.fdiv p 2) ++ " ns;\n") 8 ++
      indent_string "end process;\n" 4) ∧
    (p = 20 → Int.fdiv p 2 = 10) ∧
    (∀ k : Int, p = 2 * k → Int.fdiv p 2 = k) := by
  refine ⟨?_, ?_, ?_⟩
  · unfold TestBench.generate_clock_process
    rw [hcp]
    simp [getKey, hper, ok_bind]
  · intro h
    rw [h]
    decide
  · intro k hk
    rw [hk]
    exact Int.mul_fdiv_cancel_left k (by norm_num)

/-- C6 witness: the clock process of a concrete clocked spec with period 20
waits 10 ns per half period. -/
theorem C6_witness :
    TestBench.generate_clock_process c2data = Except.ok (
      indent_string "-- clock process\n" 4 ++
      indent_string "process\n" 4 ++
      indent_string "begin\n" 4 ++
      indent_string ("tb_" ++ "clk" ++ " <= " ++ sq ++ "0" ++ sq ++ ";\n") 8 ++
      indent_string ("wait for " ++ toString (Int.fdiv 20 2) ++ " ns;\n") 8 ++
      indent_string ("tb_" ++ "clk" ++ " <= " ++ sq ++ "1" ++ sq ++ ";\n") 8 ++
      indent_string ("wait for " ++ toString (Int.fdiv 20 2) ++ " ns;\n") 8 ++
      indent_string "end process;\n" 4) ∧
    ((20 : Int) = 20 → Int.fdiv 20 2 = 10) ∧
    (∀ k : Int, (20 : Int) = 2 * k → Int.fdiv 20 2 = k) :=
  C6_clock_process c2data "clk" 20 rfl rfl

/-- C6 counterexample: with the odd clock period 21 the emitted process
waits 10 ns per phase, and 10 is not exactly half of 21 — the claim's
"waits exactly half the clock period" fails on odd periods. -/
theorem C6_counterexample :
    TestBench.generate_clock_process c6data = Except.ok (
      indent_string "-- clock process\n" 4 ++
      indent_string "process\n" 4 ++
      indent_string "begin\n" 4 ++
      indent_string ("tb_clk <= " ++ sq ++ "0" ++ sq ++ ";\n") 8 ++
      indent_string "wait for 10 ns;\n" 8 ++
      indent_string ("tb_clk <= " ++ sq ++ "1" ++ sq ++ ";\n") 8 ++
      indent_string "wait for 10 ns;\n" 8 ++
      indent_string "end process;\n" 4) ∧
    c6data.clock_period = some 21 ∧ ¬ (2 * (10 : Int) = 21) := by
  refine ⟨rfl, rfl, by decide⟩

/-- C7: a loaded spec with an empty generic-parameter dict produces a
unit-under-test instantiation with no generic-map clause (the text runs
straight from the entity line to the port map); a non-empty dict produces a
generic map with exactly one `name => value` entry per parameter, in
order. -/
theorem C7_generic_map :
    (∀ (d : TBData) (lib ent arch : String),
      d.library = some lib → d.entity = some ent → d.architecture = some arch →
      d.generic_params = some [] →
      TestBench.generate_uut_instantiation d = Except.ok (
        indent_string "-- instantiate unit under test\n" 4 ++
        indent_string ("E_UUT: entity " ++ lib ++ "." ++ ent ++ "(" ++ arch ++ ")\n") 4 ++
        indent_string "port map (\n" 11 ++
        (TestBench.generate_port_map (d.input_pins.map Prod.fst) false ++
         TestBench.generate_port_map d.clock_pin false ++
         TestBench.generate_port_map (d.output_pins.map Prod.fst) true) ++ "\n" ++
        indent_string ");\n" 11)) ∧
    (∀ (d : TBData) (lib ent arch : String) (gps : List (String × String)),
      d.library = some lib → d.entity = some ent → d.architecture = some arch →
      d.generic_params = some gps → gps ≠ [] →
      TestBench.generate_uut_instantiation d = Except.ok (
        indent_string "-- instantiate unit under test\n" 4 ++
        indent_string ("E_UUT: entity " ++ lib ++ "." ++ ent ++ "(" ++ arch ++ ")\n") 4 ++
        (indent_string "generic map (\n" 11 ++
         String.intercalate ",\n"
           (gps.map (fun pv => indent_string (pv.1 ++ " => " ++ pv.2) 15)) ++
         "\n" ++ indent_string ")\n" 11) ++
        indent_string "port map (\n" 11 ++
        (TestBench.generate_port_map (d.input_pins.map Prod.fst) false ++
         TestBench.generate_port_map d.clock_pin false ++
         TestBench.generate_port_map (d.output_pins.map Prod.fst) true) ++ "\n" ++
        indent_string ");\n" 11)) := by
  constructor
  · intro d lib ent arch hl he ha hg
    unfold TestBench.generate_uut_instantiation
    simp [getKey, hl, he, ha, hg, ok_bind, string_empty_append, String.append_assoc]
  · intro d lib ent arch gps hl he ha hg hne
    unfold TestBench.generate_uut_instantiation
    cases gps with
    | nil => exact absurd rfl hne
    | cons g rest =>
      simp [getKey, hl, he, ha, hg, ok_bind, String.append_assoc, List.isEmpty]

/-- C7 witness: both branches applied to concrete specs, one with an empty
generic map and one with a single parameter. -/
theorem C7_witness :
    TestBench.generate_uut_instantiation c7empty = Except.ok (
      indent_string "-- instantiate unit under test\n" 4 ++
      indent_string ("E_UUT: entity " ++ "work" ++ "." ++ "e7" ++ "(" ++ "rtl" ++ ")\n") 4 ++
      indent_string "port map (\n" 11 ++
      (TestBench.generate_port_map (c7empty.input_pins.map Prod.fst) false ++
       TestBench.generate_port_map c7empty.clock_pin false ++
       TestBench.generate_port_map (c7empty.output_pins.map Prod.fst) true) ++ "\n" ++
      indent_string ");\n" 11) ∧
    TestBench.generate_uut_instantiation c7data = Except.ok (
      indent_string "-- instantiate unit under test\n" 4 ++
      indent_string ("E_UUT: entity " ++ "work" ++ "." ++ "e7" ++ "(" ++ "rtl" ++ ")\n") 4 ++
      (indent_string "generic map (\n" 11 ++
       String.intercalate ",\n"
         ([("N", "4")].map (fun pv => indent_string (pv.1 ++ " => " ++ pv.2) 15)) ++
       "\n" ++ indent_string ")\n" 11) ++
      indent_string "port map (\n" 11 ++
      (TestBench.generate_port_map (c7data.input_pins.map Prod.fst) false ++
       TestBench.generate_port_map c7data.clock_pin false ++
       TestBench.generate_port_map (c7data.output_pins.map Prod.fst) true) ++ "\n" ++
      indent_string ");\n" 11) :=
  ⟨C7_generic_map.1 c7empty "work" "e7" "rtl" rfl rfl rfl rfl,
   C7_generic_map.2 c7data "work" "e7" "rtl" [("N", "4")] rfl rfl rfl rfl (by simp)⟩

/-- C3 (amended): the generator performs no width validation: a pin with
width 0 is silently treated as a scalar (declared `std_logic`, values
single-quoted, because `0` is falsy in Python), a pin with negative width
`w` is silently declared `std_logic_vector(w-1 downto 0)` with
double-quoted values, and loading and generating a spec containing both
kinds of invalid width succeeds. -/
theorem C3_no_width_validation :
    (∀ p : String, TestBench.sigDeclLine (p, some 0) =
      indent_string ("signal tb_" ++ p ++ ": std_logic;\n") 4) ∧
    (∀ (p : String) (w : Int), w < 0 → TestBench.sigDeclLine (p, some w) =
      indent_string ("signal tb_" ++ p ++ ": std_logic_vector(" ++
        toString (w - 1) ++ " downto 0);\n") 4) ∧
    (∀ v : String, quoteVal (some 0) v = sq ++ v ++ sq) ∧
    (∀ (w : Int) (v : String), w < 0 → quoteVal (some w) v = dq ++ v ++ dq) ∧
    isOkE (TestBench.run c3raw) = true := by
  refine ⟨?_, ?_, ?_, ?_, by decide⟩
  · intro p
    show indent_string ("signal tb_" ++ p ++ ": " ++ "std_logic" ++ ";\n") 4 = _
    simp [String.append_assoc]
  · intro p w hw
    have hne : (w != 0) = true := by simp [bne_iff_ne]; omega
    have h1 : (": " ++ "std_logic_vector(" : String) = ": std_logic_vector(" := rfl
    have h2 : (" downto 0)" ++ ";\n" : String) = " downto 0);\n" := rfl
    have hs : ("signal tb_" ++ p ++ ": " ++
        ("std_logic_vector(" ++ toString (w - 1) ++ " downto 0)") ++ ";\n" : String) =
        "signal tb_" ++ p ++ ": std_logic_vector(" ++ toString (w - 1) ++ " downto 0);\n" := by
      simp only [← String.append_assoc]
      rw [String.append_assoc ("signal tb_" ++ p) ": " "std_logic_vector(", h1,
          String.append_assoc _ " downto 0)" ";\n", h2]
    unfold TestBench.sigDeclLine
    simp only [hne, if_true]
    exact congrArg (fun s => indent_string s 4) hs
  · intro v
    rfl
  · intro w v hw
    unfold quoteVal widthTruthy
    have hne : (w != 0) = true := by simp [bne_iff_ne]; omega
    simp [hne]

/-- C3 witness: the width-0 and negative-width branches at concrete
inputs. -/
theorem C3_witness :
    TestBench.sigDeclLine ("z", some 0) =
      indent_string ("signal tb_" ++ "z" ++ ": std_logic;\n") 4 ∧
    TestBench.sigDeclLine ("n", some (-1)) =
      indent_string ("signal tb_" ++ "n" ++ ": std_logic_vector(" ++
        toString ((-1 : Int) - 1) ++ " downto 0);\n") 4 ∧
    quoteVal (some (-1)) "0" = dq ++ "0" ++ dq :=
  ⟨C3_no_width_validation.1 "z",
   C3_no_width_validation.2.1 "n" (-1) (by norm_num),
   C3_no_width_validation.2.2.2.1 (-1) "0" (by norm_num)⟩

/-- C3 counterexample: on a spec with a width-0 input pin `z` and a
width-(-1) output pin `n`, the generator does not fail at all: the whole
pipeline succeeds and the internal signal declarations silently contain a
`std_logic` declaration for the width-0 pin and a degenerate
`std_logic_vector(-2 downto 0)` declaration for the negative-width pin —
contradicting "fails loudly rather than producing output". -/
theorem C3_counterexample :
    isOkE (TestBench.run c3raw) = true ∧
    TestBench.load c3raw = Except.ok c3loaded ∧
    TestBench.generate_internal_signal_declarations c3loaded =
      indent_string "-- internal signal declarations\n" 4 ++
      indent_string "signal tb_z: std_logic;\n" 4 ++
      indent_string "signal tb_n: std_logic_vector(-2 downto 0);\n" 4 := by
  refine ⟨by decide, rfl, by decide⟩

/-- C5: a loaded spec of an unclocked entity (empty clock-pin dict, as
`load` produces for `clocked = false`) in which some test vector carries a
nonzero wait code makes `generate` fail: the clock-pin lookup
`next(iter({}))` inside the wait-statement generator raises, the exception
propagates out of `generate`, and since the output file is opened only
after the whole text is assembled, no partial file is written. -/
theorem C5_unclocked_nonzero_wait (d : TBData) (i : Nat) (t : TestCase) (c : Int)
    (_hclk : d.clocked = false) (hcp : d.clock_pin = [])
    (ht : d.test_cases.get? i = some t)
    (hw : lookupKey t "_wait" = some (JVal.int c))
    (hc : c ≠ 0) :
    isOkE (TestBench.generate d) = false := by
  have hwait : isOkE (TestBench.generate_wait_statement d c) = false := by
    unfold TestBench.generate_wait_statement
    rw [hcp]
    rcases lt_trichotomy c 0 with hlt | heq | hgt
    · rw [if_neg (by omega), if_pos hlt]
      rfl
    · exact absurd heq hc
    · rw [if_pos hgt]
      rfl
  have hlines : isOkE (TestBench.generate_test_case_lines d i) = false := by
    unfold TestBench.generate_test_case_lines
    simp only [getTC_ok d i t ht, ok_bind]
    apply isOkE_bind_forall
    intro assigns
    simp only [hw, ok_bind]
    exact isOkE_bind_left _ _ hwait
  have htc : isOkE (TestBench.generate_test_case d i) = false := by
    unfold TestBench.generate_test_case
    exact isOkE_bind_left _ _ hlines
  have hmem : i ∈ List.range d.test_cases.length :=
    List.mem_range.mpr (List.get?_eq_some.mp ht).1
  have htcs : isOkE (TestBench.generate_test_cases d) = false := by
    unfold TestBench.generate_test_cases
    exact isOkE_bind_left _ _ (exMapM_isOkE_false _ i _ hmem htc)
  unfold TestBench.generate
  apply isOkE_bind_forall
  intro lib
  apply isOkE_bind_forall
  intro ent
  apply isOkE_bind_forall
  intro arch
  apply isOkE_bind_forall
  intro uut
  split
  · apply isOkE_bind_forall
    intro cp
    apply isOkE_bind_forall
    intro y
    exact isOkE_bind_left _ _ htcs
  · apply isOkE_bind_forall
    intro y
    exact isOkE_bind_left _ _ htcs

/-- C5 witness: the failure on a concrete unclocked spec whose vector has
wait code 3. -/
theorem C5_witness : isOkE (TestBench.generate c5data) = false :=
  C5_unclocked_nonzero_wait c5data 0 _ 3 rfl rfl rfl (by decide) (by decide)

/-- C2: every successfully generated test-case block contains exactly one
synchronization statement (counted as the lines beginning with `w`: all
other lines of a block begin with a different character), and that
statement is chosen by the vector's wait code: `0` gives the fixed
`wait for 10 ns;`, a positive code `c` gives a rising-edge wait for exactly
`c` edges, and a negative code `c` gives a falling-edge wait for exactly
`-c` edges of the clock signal. -/
theorem C2_wait_statement (d : TBData) (i : Nat) (t : TestCase) (c : Int)
    (ls : List String)
    (ht : d.test_cases.get? i = some t)
    (hw : lookupKey t "_wait" = some (JVal.int c))
    (hls : TestBench.generate_test_case_lines d i = Except.ok ls) :
    ls.countP isSyncLine = 1 ∧
    ∃ ws ∈ ls, isSyncLine ws = true ∧
      (c = 0 → ws = "wait for 10 ns;") ∧
      (0 < c → ∃ clk, d.clock_pin.head? = some clk ∧
        ws = "wait_until_clk_edges(tb_" ++ clk ++ ", " ++ toString c ++ ", true);") ∧
      (c < 0 → ∃ clk, d.clock_pin.head? = some clk ∧
        ws = "wait_until_clk_edges(tb_" ++ clk ++ ", " ++ toString (-c) ++ ", false);") := by
  obtain ⟨t2, assigns, c2, ws, asserts, ifs, ht2, hass, hw2, hws, hasserts, hifs, hlseq⟩ :=
    gtcl_ok_inv d i ls hls
  rw [ht] at ht2
  injection ht2 with ht2
  subst ht2
  rw [hw] at hw2
  injection hw2 with hw2
  injection hw2 with hw2
  subst hw2
  have hwsChar : isSyncLine ws = true ∧
      (c = 0 → ws = "wait for 10 ns;") ∧
      (0 < c → ∃ clk, d.clock_pin.head? = some clk ∧
        ws = "wait_until_clk_edges(tb_" ++ clk ++ ", " ++ toString c ++ ", true);") ∧
      (c < 0 → ∃ clk, d.clock_pin.head? = some clk ∧
        ws = "wait_until_clk_edges(tb_" ++ clk ++ ", " ++ toString (-c) ++ ", false);") := by
    unfold TestBench.generate_wait_statement at hws
    rcases lt_trichotomy c 0 with hlt | heq | hgt
    · rw [if_neg (by omega), if_pos hlt] at hws
      cases hck : d.clock_pin.head? with
      | none => rw [hck] at hws; exact absurd hws (by simp)
      | some clk =>
        rw [hck] at hws
        injection hws with hws
        refine ⟨?_, fun h => absurd h (by omega), fun h => absurd h (by omega),
          fun _ => ⟨clk, rfl, hws.symm⟩⟩
        rw [← hws]
        apply isSync_append_true
        repeat apply headChar_append
        rfl
    · subst heq
      rw [if_neg (by omega), if_neg (by omega)] at hws
      injection hws with hws
      refine ⟨?_, fun _ => hws.symm, fun h => absurd h (by omega),
        fun h => absurd h (by omega)⟩
      rw [← hws]
      decide
    · rw [if_pos hgt] at hws
      cases hck : d.clock_pin.head? with
      | none => rw [hck] at hws; exact absurd hws (by simp)
      | some clk =>
        rw [hck] at hws
        injection hws with hws
        refine ⟨?_, fun h => absurd h (by omega), fun _ => ⟨clk, rfl, hws.symm⟩,
          fun h => absurd h (by omega)⟩
        rw [← hws]
        apply isSync_append_true
        repeat apply headChar_append
        rfl
  have hcmt : isSyncLine ("-- test case " ++ toString i) = false :=
    isSync_append_false _ _ '-' rfl (by decide)
  have hassignsF : ∀ b ∈ assigns, isSyncLine b = false := by
    intro b hb
    obtain ⟨pw, _, hfb⟩ := forall₂_mem_right _ _ _ (exMapM_ok_forall₂ _ _ _ hass) b hb
    obtain ⟨v, _, hbeq⟩ := assign_line_ok t pw b hfb
    rw [hbeq]
    apply isSync_append_false _ _ 't' ?_ (by decide)
    repeat apply headChar_append
    rfl
  have hassigns0 : assigns.countP isSyncLine = 0 :=
    List.countP_eq_zero.mpr (fun b hb => by simp [hassignsF b hb])
  have haL : isSyncLine ("assert (" ++ String.intercalate " and " asserts ++ ")") = false := by
    apply isSync_append_false _ _ 'a' ?_ (by decide)
    repeat apply headChar_append
    rfl
  have hrL : isSyncLine ("report " ++ dq ++ "Test case " ++ toString i ++ " failed!" ++ dq) = false := by
    apply isSync_append_false _ _ 'r' ?_ (by decide)
    repeat apply headChar_append
    rfl
  have hiL : isSyncLine ("if (" ++ String.intercalate " or " ifs ++ ") then") = false := by
    apply isSync_append_false _ _ 'i' ?_ (by decide)
    repeat apply headChar_append
    rfl
  have hsev : isSyncLine "severity error;" = false := by decide
  have hfc : isSyncLine (indent_string "fail_count := fail_count + 1;" 4) = false := by decide
  have hend : isSyncLine "end if;" = false := by decide
  constructor
  · rw [hlseq]
    simp only [List.countP_cons, List.countP_append, hassigns0, hcmt, hwsChar.1,
      haL, hrL, hiL, hsev, hfc, hend, List.countP_nil]
    norm_num
  · refine ⟨ws, ?_, hwsChar⟩
    rw [hlseq]
    simp [List.mem_cons, List.mem_append]

/-- C2 witness: the single rising-edge wait of a concrete clocked spec with
wait code 2. -/
theorem C2_witness :
    c2lines.countP isSyncLine = 1 ∧
    ∃ ws ∈ c2lines, isSyncLine ws = true ∧
      ((2 : Int) = 0 → ws = "wait for 10 ns;") ∧
      ((0 : Int) < 2 → ∃ clk, c2data.clock_pin.head? = some clk ∧
        ws = "wait_until_clk_edges(tb_" ++ clk ++ ", " ++ toString (2 : Int) ++ ", true);") ∧
      ((2 : Int) < 0 → ∃ clk, c2data.clock_pin.head? = some clk ∧
        ws = "wait_until_clk_edges(tb_" ++ clk ++ ", " ++ toString (-(2 : Int)) ++ ", false);") :=
  C2_wait_statement c2data 0 _ 2 c2lines rfl (by decide) rfl

/-- C9: a successful `generate_test_cases` emits exactly one block per test
vector, joined in ascending index order; the `i`-th block is generated from
vector index `i` (0-based), its first line is the comment citing `i` and it
contains the failure-report line citing the same `i`. -/
theorem C9_vector_blocks (d : TBData) (s : String)
    (h : TestBench.generate_test_cases d = Except.ok s) :
    ∃ blocks : List String,
      s = String.intercalate "\n" blocks ∧
      blocks.length = d.test_cases.length ∧
      ∀ i, i < blocks.length →
        ∃ ls, TestBench.generate_test_case_lines d i = Except.ok ls ∧
          ls.head? = some ("-- test case " ++ toString i) ∧
          ("report " ++ dq ++ "Test case " ++ toString i ++ " failed!" ++ dq) ∈ ls ∧
          blocks.get? i = some (String.intercalate "\n"
            (ls.map (fun l => indent_string l 8)) ++ "\n") := by
  unfold TestBench.generate_test_cases at h
  cases hm : exMapM (TestBench.generate_test_case d) (List.range d.test_cases.length) with
  | error e => simp only [hm, error_bind] at h; exact absurd h (by simp)
  | ok blocks =>
    simp only [hm, ok_bind] at h
    injection h with h
    have hf := exMapM_ok_forall₂ _ _ _ hm
    have hlen : blocks.length = d.test_cases.length := by
      have h2 := hf.length_eq
      simpa using h2.symm
    refine ⟨blocks, h.symm, hlen, ?_⟩
    intro i hi
    have hri : (List.range d.test_cases.length).get? i = some i :=
      List.get?_range (by omega)
    obtain ⟨b, hbg, hfb⟩ := forall₂_get? _ _ _ hf i i hri
    obtain ⟨ls, hls, hbeq⟩ := gtc_ok_inv d i b hfb
    obtain ⟨t, assigns, c, ws, asserts, ifs, _, _, _, _, _, _, hlseq⟩ :=
      gtcl_ok_inv d i ls hls
    refine ⟨ls, hls, ?_, ?_, ?_⟩
    · rw [hlseq]
      rfl
    · rw [hlseq]
      simp [List.mem_cons, List.mem_append]
    · rw [hbg, hbeq]

/-- C9 witness: the single block of a concrete one-vector spec. -/
theorem C9_witness :
    ∃ blocks : List String,
      c9out = String.intercalate "\n" blocks ∧
      blocks.length = c9data.test_cases.length ∧
      ∀ i, i < blocks.length →
        ∃ ls, TestBench.generate_test_case_lines c9data i = Except.ok ls ∧
          ls.head? = some ("-- test case " ++ toString i) ∧
          ("report " ++ dq ++ "Test case " ++ toString i ++ " failed!" ++ dq) ∈ ls ∧
          blocks.get? i = some (String.intercalate "\n"
            (ls.map (fun l => indent_string l 8)) ++ "\n") :=
  C9_vector_blocks c9data c9out rfl

/-- C1 (amended): for every loaded spec and test vector, a pin with a falsy
width (absent, and also 0) has its value stored single-quoted and a pin
with a truthy width double-quoted, with the rendered raw value verbatim
between the quotes — the generator does not check or pad the value to W
characters; the stored quoted value is what every reference site emits
verbatim: the input assignment lines, the compound output assertion and
the fail-count condition. -/
theorem C1_quoting :
    (∀ (pins : List (String × Option Int)) (t t2 : TestCase) (p : String)
        (w : Option Int) (v : JVal),
      (pins.map Prod.fst).Nodup → (p, w) ∈ pins →
      lookupKey t p = some v →
      TestBench.quote_test_case pins t = Except.ok t2 →
      lookupKey t2 p = some (JVal.str (quoteVal w v.render)) ∧
      (widthTruthy w = false → quoteVal w v.render = sq ++ v.render ++ sq) ∧
      (widthTruthy w = true → quoteVal w v.render = dq ++ v.render ++ dq)) ∧
    (∀ (d : TBData) (num : Nat) (t : TestCase) (p : String) (w : Option Int)
        (s : String) (ls : List String),
      d.test_cases.get? num = some t → (p, w) ∈ d.input_pins →
      lookupKey t p = some (JVal.str s) →
      TestBench.generate_test_case_lines d num = Except.ok ls →
      ("tb_" ++ p ++ " <= " ++ s ++ ";") ∈ ls) ∧
    (∀ (d : TBData) (num : Nat) (t : TestCase) (vals : String → String)
        (ls : List String),
      d.test_cases.get? num = some t →
      (∀ pw ∈ d.output_pins, lookupKey t pw.1 = some (JVal.str (vals pw.1))) →
      TestBench.generate_test_case_lines d num = Except.ok ls →
      ("assert (" ++ String.intercalate " and "
          (d.output_pins.map (fun pw => "(tb_" ++ pw.1 ++ " = " ++ vals pw.1 ++ ")")) ++
        ")") ∈ ls ∧
      ("if (" ++ String.intercalate " or "
          (d.output_pins.map (fun pw => "(tb_" ++ pw.1 ++ " /= " ++ vals pw.1 ++ ")")) ++
        ") then") ∈ ls) := by
  refine ⟨?_, ?_, ?_⟩
  · intro pins t t2 p w v hnd hmem hv hq
    refine ⟨quote_lookup p w pins t t2 v hnd hmem hv hq, ?_, ?_⟩
    · intro hf
      unfold quoteVal
      rw [hf]
      rfl
    · intro htr
      unfold quoteVal
      rw [htr]
      rfl
  · intro d num t p w s ls ht hmem hv hls
    obtain ⟨t2, assigns, c, ws, asserts, ifs, ht2, hass, _, _, _, _, hlseq⟩ :=
      gtcl_ok_inv d num ls hls
    rw [ht] at ht2
    injection ht2 with ht2
    subst ht2
    obtain ⟨b, hb, hfb⟩ :=
      forall₂_mem_left _ _ _ (exMapM_ok_forall₂ _ _ _ hass) (p, w) hmem
    rw [assign_line_ok_of_lookup t (p, w) s hv] at hfb
    injection hfb with hfb
    rw [hlseq]
    exact List.mem_cons_of_mem _ (List.mem_append_left _ (hfb ▸ hb))
  · intro d num t vals ls ht hvals hls
    obtain ⟨t2, assigns, c, ws, asserts, ifs, ht2, _, _, _, hasserts, hifs, hlseq⟩ :=
      gtcl_ok_inv d num ls hls
    rw [ht] at ht2
    injection ht2 with ht2
    subst ht2
    rw [exMapM_ok_of_pointwise _ _ _
      (fun pw hpw => assert_part_ok_of_lookup t pw _ (hvals pw hpw))] at hasserts
    injection hasserts with hasserts
    rw [exMapM_ok_of_pointwise _ _ _
      (fun pw hpw => fail_part_ok_of_lookup t pw _ (hvals pw hpw))] at hifs
    injection hifs with hifs
    constructor
    · rw [hasserts, hlseq]
      simp [List.mem_cons, List.mem_append]
    · rw [hifs, hlseq]
      simp [List.mem_cons, List.mem_append]

/-- C1 witness: the three parts of the amended claim at the concrete spec
`c1raw` / `c1loaded`. -/
theorem C1_witness :
    (lookupKey c1qt "b" = some (JVal.str (quoteVal (some 2) (JVal.str "1").render)) ∧
     (widthTruthy (some 2) = false →
       quoteVal (some 2) (JVal.str "1").render = sq ++ (JVal.str "1").render ++ sq) ∧
     (widthTruthy (some 2) = true →
       quoteVal (some 2) (JVal.str "1").render = dq ++ (JVal.str "1").render ++ dq)) ∧
    ("tb_" ++ "a" ++ " <= " ++ (sq ++ "0" ++ sq) ++ ";") ∈ c1lines ∧
    (("assert (" ++ String.intercalate " and "
        (c1loaded.output_pins.map
          (fun pw => "(tb_" ++ pw.1 ++ " = " ++ (fun _ => dq ++ "1" ++ dq) pw.1 ++ ")")) ++
      ")") ∈ c1lines ∧
     ("if (" ++ String.intercalate " or "
        (c1loaded.output_pins.map
          (fun pw => "(tb_" ++ pw.1 ++ " /= " ++ (fun _ => dq ++ "1" ++ dq) pw.1 ++ ")")) ++
      ") then") ∈ c1lines) :=
  ⟨C1_quoting.1 (mergePins c1raw.input_pins c1raw.output_pins)
      [("a", JVal.str "0"), ("b", JVal.str "1"), ("_wait", JVal.int 0)] c1qt
      "b" (some 2) (JVal.str "1") (by decide) (by decide) (by decide) rfl,
   C1_quoting.2.1 c1loaded 0 c1qt "a" none (sq ++ "0" ++ sq) c1lines rfl
      (by decide) (by decide) rfl,
   C1_quoting.2.2 c1loaded 0 c1qt (fun _ => dq ++ "1" ++ dq) c1lines rfl
      (by decide) rfl⟩

/-- C1 counterexample: loading `c1raw` succeeds, and the test-case block of
its single vector references the width-2 pin `b`'s value as a double-quoted
literal whose text between the quotes is the raw value `1` — exactly 1
character, not the declared width 2; the "exactly W characters" part of the
claim fails on the code. -/
theorem C1_counterexample :
    TestBench.load c1raw = Except.ok c1loaded ∧
    TestBench.generate_test_case_lines c1loaded 0 = Except.ok c1lines ∧
    lookupKey c1qt "b" = some (JVal.str (dq ++ "1" ++ dq)) ∧
    String.length "1" = 1 ∧ ¬ (1 = 2) := by
  exact ⟨rfl, rfl, by decide, rfl, by decide⟩

/-- C10: test-vector record keys other than the declared input-pin names,
output-pin names and the wait-code key `"_wait"` are never read by
generation: two loaded specs whose vector lists agree pointwise on all
declared keys (and may differ arbitrarily on undeclared keys) generate
identical output text. -/
theorem C10_undeclared_keys_ignored (d : TBData) (tcs2 : List TestCase)
    (h : List.Forall₂ (agreeOn (declaredKeys d)) d.test_cases tcs2) :
    TestBench.generate d = TestBench.generate { d with test_cases := tcs2 } := by
  have hlen : d.test_cases.length = tcs2.length := h.length_eq
  have hwstmt : ∀ code : Int,
      TestBench.generate_wait_statement { d with test_cases := tcs2 } code =
      TestBench.generate_wait_statement d code := fun _ => rfl
  have hlines : ∀ i, TestBench.generate_test_case_lines d i =
      TestBench.generate_test_case_lines { d with test_cases := tcs2 } i := by
    intro i
    unfold TestBench.generate_test_case_lines TestBench.getTC
    dsimp only
    cases hg : d.test_cases.get? i with
    | none =>
      have hg2 : tcs2.get? i = none := by
        rw [List.get?_eq_none] at hg ⊢
        omega
      rw [hg2]
      rfl
    | some t1 =>
      obtain ⟨u, hg2, hag⟩ := forall₂_get? _ _ _ h i t1 hg
      rw [hg2]
      simp only [ok_bind]
      have hassign : exMapM (TestBench.assign_line t1) d.input_pins =
          exMapM (TestBench.assign_line u) d.input_pins :=
        exMapM_congr _ _ _ (fun pw hpw => by
          unfold TestBench.assign_line
          rw [hag pw.1 (List.mem_append_left _ (List.mem_append_left _
            (List.mem_map_of_mem Prod.fst hpw)))])
      have hwk : lookupKey t1 "_wait" = lookupKey u "_wait" :=
        hag "_wait" (List.mem_append_right _ (List.mem_singleton.mpr rfl))
      have hasrt : exMapM (TestBench.assert_part t1) d.output_pins =
          exMapM (TestBench.assert_part u) d.output_pins :=
        exMapM_congr _ _ _ (fun pw hpw => by
          unfold TestBench.assert_part
          rw [hag pw.1 (List.mem_append_left _ (List.mem_append_right _
            (List.mem_map_of_mem Prod.fst hpw)))])
      have hfail : exMapM (TestBench.fail_part t1) d.output_pins =
          exMapM (TestBench.fail_part u) d.output_pins :=
        exMapM_congr _ _ _ (fun pw hpw => by
          unfold TestBench.fail_part
          rw [hag pw.1 (List.mem_append_left _ (List.mem_append_right _
            (List.mem_map_of_mem Prod.fst hpw)))])
      simp only [hassign, hwk, hasrt, hfail, hwstmt]
  have htcblock : ∀ i, TestBench.generate_test_case d i =
      TestBench.generate_test_case { d with test_cases := tcs2 } i := by
    intro i
    unfold TestBench.generate_test_case
    rw [hlines i]
  have htcs : TestBench.generate_test_cases d =
      TestBench.generate_test_cases { d with test_cases := tcs2 } := by
    unfold TestBench.generate_test_cases
    dsimp only
    rw [← hlen, exMapM_congr _ _ _ (fun i _ => htcblock i)]
  have hsig : TestBench.generate_internal_signal_declarations
      { d with test_cases := tcs2 } =
      TestBench.generate_internal_signal_declarations d := rfl
  have huut : TestBench.generate_uut_instantiation { d with test_cases := tcs2 } =
      TestBench.generate_uut_instantiation d := rfl
  have hclkp : TestBench.generate_clock_process { d with test_cases := tcs2 } =
      TestBench.generate_clock_process d := rfl
  unfold TestBench.generate
  dsimp only
  simp only [hsig, huut, hclkp, htcs]

/-- C10 witness: a vector with an extra `"note"` key generates the same
text as the vector without it. -/
theorem C10_witness :
    TestBench.generate c9data = TestBench.generate { c9data with test_cases := c10extra } :=
  C10_undeclared_keys_ignored c9data c10extra
    (List.Forall₂.cons (by decide) List.Forall₂.nil)

end TbGen
